import Mathlib

/-!
Shallow embedding of the `BeckhoffADSInterface` class from
`beckhoff_ads_interface.py` and proofs of the specification claims
about its trigger/handshake poll loop, bounded-write circuit breaker,
and result-publishing handshake.

The Python object state is modelled by `ADSState`; the environment
(results of the underlying `read_by_name` / `write_by_name` calls,
whether the measurement callback raises, injected exceptions) is an
explicit oracle argument to each operation.  Side effects are recorded
as explicit traces: `Action` lists for I/O-level operations and state
assignments, `LogEvent` lists for `log_callback` invocations.
-/

namespace BeckhoffADS

/-- Variable name `self.var_trigger` with the default symbol prefix. -/
def var_trigger : String := "GVL_CHRocodile.bTriggerMeasurement"

/-- Variable name `self.var_start_cont`. -/
def var_start_cont : String := "GVL_CHRocodile.bStartContinuous"

/-- Variable name `self.var_stop_cont`. -/
def var_stop_cont : String := "GVL_CHRocodile.bStopContinuous"

/-- Variable name `self.var_interval`. -/
def var_interval : String := "GVL_CHRocodile.nIntervalMs"

/-- Variable name `self.var_busy`. -/
def var_busy : String := "GVL_CHRocodile.bMeasurementBusy"

/-- Variable name `self.var_ready`. -/
def var_ready : String := "GVL_CHRocodile.bMeasurementReady"

/-- Variable name `self.var_ack`. -/
def var_ack : String := "GVL_CHRocodile.bMeasurementAck"

/-- Variable name `self.var_thickness`. -/
def var_thickness : String := "GVL_CHRocodile.rThickness"

/-- Variable name `self.var_peak1`. -/
def var_peak1 : String := "GVL_CHRocodile.rPeak1"

/-- Variable name `self.var_peak2`. -/
def var_peak2 : String := "GVL_CHRocodile.rPeak2"

/-- Variable name `self.var_count`. -/
def var_count : String := "GVL_CHRocodile.nMeasurementCount"

/-- Variable name `self.var_error`. -/
def var_error : String := "GVL_CHRocodile.sError"

/-- Callback command string for a single measurement dispatch. -/
def cmd_trigger : String := "trigger_measurement"

/-- Callback command string for starting continuous acquisition. -/
def cmd_start_cont : String := "start_continuous"

/-- Callback command string for stopping continuous acquisition. -/
def cmd_stop_cont : String := "stop_continuous"

/-- Values written to or read from PLC variables.  REAL values carry an
opaque integer payload: no arithmetic is ever performed on them by the
code under study, they are only passed through. -/
inductive PlcVal where
  | vb (b : Bool)
  | vr (x : Int)
  | vn (n : Nat)
  | vs (s : String)
deriving DecidableEq, Repr

/-- Outcome of the underlying `write_by_name` call raced against the
timeout timer inside `_safe_write`: it completes in time (`success`),
does not complete within the timeout (`timeout`), or raises
(`failure err`). -/
inductive WriteOutcome where
  | success
  | timeout
  | failure (err : String)
deriving DecidableEq, Repr

/-- Events emitted through `self.log_callback`, restricted to the ones
the claims mention.  Each constructor corresponds to one `log_callback`
call site in the source, carrying the data that call site embeds in its
message. -/
inductive LogEvent where
  | writeTimeoutLog (v : String) (count : Nat)
  | variableDisabledLog (v : String) (count : Nat)
  | writeErrorLog (v : String) (err : String)
  | reenabledLog (v : String)
  | resetDisabledLog (count : Nat)
  | stopPollLog
  | disconnectLog
deriving DecidableEq, Repr

/-- Observable operations performed by the interface (underlying reads,
`_safe_write` calls, assignments to the edge-detection state, callback
dispatches, thread start, disconnect).  A `readVar` result of `none`
means the read raised. -/
inductive Action where
  | readVar (v : String) (result : Option PlcVal)
  | safeWrite (v : String) (val : PlcVal)
  | setLastTrigger (b : Bool)
  | setMip (b : Bool)
  | dispatch (cmd : String)
  | startThread
deriving DecidableEq, Repr

/-- Mutable state of a `BeckhoffADSInterface` instance.  `plcOpen`
models `self.plc is not None and self.plc.is_open` (a `None` handle and
a closed handle are conflated: every use site in the modelled code
tests exactly this conjunction). -/
structure ADSState where
  plcOpen : Bool
  running : Bool
  last_trigger_state : Bool
  last_start_cont_state : Bool
  last_stop_cont_state : Bool
  measurement_in_progress : Bool
  write_timeout_count : List (String × Nat)
  disabled_variables : List String
deriving DecidableEq, Repr

/-- Threshold `self._max_consecutive_timeouts` (fixed at 3 in
`__init__`). -/
def max_consecutive_timeouts : Nat := 3

/-- Lookup in the `_write_timeout_count` dict. -/
def dictGet : List (String × Nat) → String → Option Nat
  | [], _ => none
  | (k, v) :: rest, key => if k = key then some v else dictGet rest key

/-- Assignment `d[key] = val` on the `_write_timeout_count` dict. -/
def dictSet : List (String × Nat) → String → Nat → List (String × Nat)
  | [], key, val => [(key, val)]
  | (k, v) :: rest, key, val =>
      if k = key then (k, val) :: rest else (k, v) :: dictSet rest key val

/-- Consecutive-timeout counter of a variable, read the way the Python
code reads it (missing key behaves as 0: the code initialises a missing
key to 0 before incrementing). -/
def countOf (s : ADSState) (v : String) : Nat :=
  (dictGet s.write_timeout_count v).getD 0

/-- Result of one `_safe_write` call: the state after the call, the
boolean the call returns, whether the underlying `write_by_name` was
actually invoked, and the log events emitted. -/
structure WriteResult where
  state : ADSState
  ret : Bool
  attempted : Bool
  log : List LogEvent
deriving DecidableEq, Repr

/-- Embedding of `BeckhoffADSInterface._safe_write` (lines 159-253).
The `outcome` oracle stands for what the underlying
`write_by_name`-in-a-thread race would produce, consulted only when the
write is actually attempted. -/
def safe_write (s : ADSState) (name : String) (outcome : WriteOutcome) :
    WriteResult :=
  if s.plcOpen = false then ⟨s, false, false, []⟩
  else if name ∈ s.disabled_variables then
    -- variable is disabled: do not attempt write, silently skip
    ⟨s, false, false, []⟩
  else
    match outcome with
    | .timeout =>
        -- `if variable_name not in dict: dict[v] = 0` then `dict[v] += 1`
        let cnt := (dictGet s.write_timeout_count name).getD 0 + 1
        let s1 : ADSState :=
          { s with write_timeout_count := dictSet s.write_timeout_count name cnt }
        if max_consecutive_timeouts ≤ cnt then
          ⟨{ s1 with disabled_variables := s1.disabled_variables.insert name },
           false, true, [.variableDisabledLog name cnt]⟩
        else
          ⟨s1, false, true, [.writeTimeoutLog name cnt]⟩
    | .failure err =>
        -- reset counter on exception, only when the key already exists
        let s1 : ADSState :=
          { s with write_timeout_count :=
              if (dictGet s.write_timeout_count name).isSome then
                dictSet s.write_timeout_count name 0
              else s.write_timeout_count }
        ⟨s1, false, true, [.writeErrorLog name err]⟩
    | .success =>
        let s1 : ADSState :=
          { s with write_timeout_count :=
              if (dictGet s.write_timeout_count name).isSome then
                dictSet s.write_timeout_count name 0
              else s.write_timeout_count }
        if name ∈ s1.disabled_variables then
          ⟨{ s1 with disabled_variables := s1.disabled_variables.erase name },
           true, true, [.reenabledLog name]⟩
        else
          ⟨s1, true, true, []⟩

/-- Iterated `_safe_write` calls on one variable, threading the state. -/
def safe_write_runs : ADSState → String → List WriteOutcome → List WriteResult
  | _, _, [] => []
  | s, v, o :: rest =>
      let r := safe_write s v o
      r :: safe_write_runs r.state v rest

/-- Result of `reset_disabled_variables`: new state, the Python return
value (the function body has no `return` statement, so it returns
`None`, modelled as `none`), and the log events. -/
structure ResetResult where
  state : ADSState
  ret : Option Nat
  log : List LogEvent
deriving DecidableEq, Repr

/-- Embedding of `reset_disabled_variables` (lines 255-265). -/
def reset_disabled_variables (s : ADSState) : ResetResult :=
  let disabled_count := s.disabled_variables.length
  ⟨{ s with disabled_variables := [], write_timeout_count := [] },
   none,
   [.resetDisabledLog disabled_count]⟩

/-- Embedding of `get_disabled_variables` (lines 267-274). -/
def get_disabled_variables (s : ADSState) : List String :=
  s.disabled_variables

/-- Embedding of `stop_polling` (lines 510-521): sets `running = False`,
joins the poll thread (no state effect), logs, and unconditionally calls
`disconnect`, which closes any open session, logs when a handle exists,
and leaves `self.plc = None`. -/
def stop_polling (s : ADSState) : ADSState × List LogEvent :=
  ({ s with running := false, plcOpen := false },
   [.stopPollLog] ++ (if s.plcOpen then [.disconnectLog] else []))

/-- Environment oracle for one iteration of `_poll_loop`: the results
of the reads performed in that cycle (`none` = the read raised), whether
`self.callback` is set, whether `callback("trigger_measurement")`
raises, and the outcomes of the `_safe_write` calls the dispatch branch
may perform (busy=TRUE, ready=FALSE, and on callback error the error
string and busy=FALSE).  Exceptions raised by the continuous-mode
callback are caught by the surrounding `except` and only skip the
continuous edge-state update; they never touch the trigger state, so
they are not modelled separately. -/
structure CycleEnv where
  triggerRead : Option Bool
  ackRead : Option Bool
  contRead : Option (Bool × Bool)
  intervalRead : Option Nat
  haveCallback : Bool
  callbackRaises : Bool
  wBusy : WriteOutcome
  wReady : WriteOutcome
  wErr : WriteOutcome
  wBusy2 : WriteOutcome
deriving DecidableEq, Repr

/-- Rising-edge branch of `_poll_loop` (lines 542-570): when the freshly
read `trigger` is TRUE, `last_trigger_state` is FALSE and no measurement
is in progress, and a callback is installed, set
`measurement_in_progress = True`, write busy=TRUE and ready=FALSE, and
invoke `callback("trigger_measurement")`; if the callback raises, clear
`measurement_in_progress`, write the error string and busy=FALSE. -/
def edge_step (s : ADSState) (env : CycleEnv) (trigger : Bool) :
    ADSState × List Action :=
  if trigger = true ∧ s.last_trigger_state = false ∧
      s.measurement_in_progress = false then
    if env.haveCallback then
      let sA : ADSState := { s with measurement_in_progress := true }
      let w1 := safe_write sA var_busy env.wBusy
      let w2 := safe_write w1.state var_ready env.wReady
      if env.callbackRaises then
        let sB : ADSState := { w2.state with measurement_in_progress := false }
        let w3 := safe_write sB var_error env.wErr
        let w4 := safe_write w3.state var_busy env.wBusy2
        (w4.state,
         [Action.safeWrite var_busy (PlcVal.vb true),
          Action.safeWrite var_ready (PlcVal.vb false),
          Action.dispatch cmd_trigger,
          Action.safeWrite var_error (PlcVal.vs "err"),
          Action.safeWrite var_busy (PlcVal.vb false)])
      else
        (w2.state,
         [Action.safeWrite var_busy (PlcVal.vb true),
          Action.safeWrite var_ready (PlcVal.vb false),
          Action.dispatch cmd_trigger])
    else (s, [])
  else (s, [])

/-- Continuous-mode branch of `_poll_loop` (lines 585-621): read the
start/stop flags (a raising read is caught and skips the whole branch),
on a start rising edge read the interval variable (default 100 on read
failure) and dispatch `start_continuous`, on a stop rising edge dispatch
`stop_continuous`, then store both flags into the edge state. -/
def cont_step (s : ADSState) (env : CycleEnv) : ADSState × List Action :=
  match env.contRead with
  | none => (s, [Action.readVar var_start_cont none])
  | some (sc, st) =>
      let startTr : List Action :=
        if sc = true ∧ s.last_start_cont_state = false then
          [Action.readVar var_interval (env.intervalRead.map PlcVal.vn)] ++
          (if env.haveCallback then [Action.dispatch cmd_start_cont] else [])
        else []
      let stopTr : List Action :=
        if st = true ∧ s.last_stop_cont_state = false ∧ env.haveCallback then
          [Action.dispatch cmd_stop_cont]
        else []
      ({ s with last_start_cont_state := sc, last_stop_cont_state := st },
       [Action.readVar var_start_cont (some (PlcVal.vb sc)),
        Action.readVar var_stop_cont (some (PlcVal.vb st))] ++ startTr ++ stopTr)

/-- Edge-state update at the end of a poll cycle (lines 623-629):
`last_trigger_state = trigger` only when no measurement is in
progress. -/
def trigger_update_step (s : ADSState) (trigger : Bool) :
    ADSState × List Action :=
  if s.measurement_in_progress = false then
    ({ s with last_trigger_state := trigger }, [Action.setLastTrigger trigger])
  else (s, [])

/-- One iteration of `_poll_loop` (lines 528-698).  With a closed
session the cycle only sleeps; a raising trigger read logs (and, since
the session tests open here, does not reconnect) and ends the cycle; a
successful read runs the rising-edge branch, the acknowledgment read
(log only), the continuous-mode branch, and the trigger edge-state
update, in source order. -/
def poll_cycle (s : ADSState) (env : CycleEnv) : ADSState × List Action :=
  if s.plcOpen = false then (s, [])
  else
    match env.triggerRead with
    | none => (s, [Action.readVar var_trigger none])
    | some trigger =>
        let e := edge_step s env trigger
        let c := cont_step e.1 env
        let u := trigger_update_step c.1 trigger
        (u.1,
         Action.readVar var_trigger (some (PlcVal.vb trigger)) ::
           (e.2 ++ [Action.readVar var_ack (env.ackRead.map PlcVal.vb)] ++
            c.2 ++ u.2))

/-- Iterated poll cycles, threading the state and concatenating the
traces. -/
def poll_cycles : ADSState → List CycleEnv → ADSState × List Action
  | s, [] => (s, [])
  | s, e :: rest =>
      let r := poll_cycle s e
      let r2 := poll_cycles r.1 rest
      (r2.1, r.2 ++ r2.2)

/-- Environment oracle for `start_polling`: whether a needed `connect()`
succeeds, and the result of the initial trigger read (`none` = the read
raised). -/
structure StartEnv where
  connectOk : Bool
  triggerRead : Option Bool
deriving DecidableEq, Repr

/-- Embedding of `start_polling` (lines 432-508): running already means
return False; a failed connect means return False; otherwise one read of
the trigger variable seeds `last_trigger_state` (False when the read
raises), then the running flag is set and the poll thread started, and
True is returned. -/
def start_polling (s : ADSState) (env : StartEnv) :
    ADSState × Bool × List Action :=
  if s.running then (s, false, [])
  else if s.plcOpen = false ∧ env.connectOk = false then (s, false, [])
  else
    let s1 : ADSState := { s with plcOpen := true }
    let v := env.triggerRead.getD false
    ({ s1 with last_trigger_state := v, running := true }, true,
     [Action.readVar var_trigger (env.triggerRead.map PlcVal.vb),
      Action.setLastTrigger v, Action.startThread])

/-- Input dictionary of `write_measurement_result`: the optional result
fields and the optional measurement count (read with
`.get('measurement_count', 0)`). -/
structure MeasurementData where
  thickness : Option Int
  peak1 : Option Int
  peak2 : Option Int
  measurement_count : Option Nat
deriving DecidableEq, Repr

/-- Environment oracle for `write_measurement_result`: results of the
resync read and outcomes of each `_safe_write` in the try-block, a fault
injection point (`fault = some k` raises an exception to the outer
handler after the first `k` units of the sequence, e.g. from a
`log_callback` or a `float()` conversion; the sequence has 8 units, and
`k = 8` means the exception occurs in the final log after the whole
sequence), and the outcomes the exception handler uses for its
busy=FALSE write and its best-effort resync read. -/
structure PublishEnv where
  triggerRead : Option Bool
  wThickness : WriteOutcome
  wPeak1 : WriteOutcome
  wPeak2 : WriteOutcome
  wCount : WriteOutcome
  wBusy : WriteOutcome
  wReady : WriteOutcome
  wErr : WriteOutcome
  fault : Option Nat
  hBusy : WriteOutcome
  hTriggerRead : Option Bool
deriving DecidableEq, Repr

/-- Unit `i` of the try-block of `write_measurement_result` (lines
720-783), in source order: 0 = trigger resync (its own inner
try/except: a raising read only logs), 1-3 = thickness/peak1/peak2
writes when present, 4 = measurement-count write, 5 = busy=FALSE then,
only if that returned True, ready=TRUE, 6 = clear the error variable,
7 = `measurement_in_progress = False`. -/
def pub_unit (i : Nat) (s : ADSState) (d : MeasurementData)
    (env : PublishEnv) : ADSState × List Action :=
  match i with
  | 0 =>
      match env.triggerRead with
      | some b =>
          ({ s with last_trigger_state := b },
           [Action.readVar var_trigger (some (PlcVal.vb b)),
            Action.setLastTrigger b])
      | none => (s, [Action.readVar var_trigger none])
  | 1 =>
      match d.thickness with
      | some x =>
          let w := safe_write s var_thickness env.wThickness
          (w.state, [Action.safeWrite var_thickness (PlcVal.vr x)])
      | none => (s, [])
  | 2 =>
      match d.peak1 with
      | some x =>
          let w := safe_write s var_peak1 env.wPeak1
          (w.state, [Action.safeWrite var_peak1 (PlcVal.vr x)])
      | none => (s, [])
  | 3 =>
      match d.peak2 with
      | some x =>
          let w := safe_write s var_peak2 env.wPeak2
          (w.state, [Action.safeWrite var_peak2 (PlcVal.vr x)])
      | none => (s, [])
  | 4 =>
      let c := d.measurement_count.getD 0
      let w := safe_write s var_count env.wCount
      (w.state, [Action.safeWrite var_count (PlcVal.vn c)])
  | 5 =>
      let w1 := safe_write s var_busy env.wBusy
      if w1.ret then
        let w2 := safe_write w1.state var_ready env.wReady
        (w2.state,
         [Action.safeWrite var_busy (PlcVal.vb false),
          Action.safeWrite var_ready (PlcVal.vb true)])
      else
        (w1.state, [Action.safeWrite var_busy (PlcVal.vb false)])
  | 6 =>
      let w := safe_write s var_error env.wErr
      (w.state, [Action.safeWrite var_error (PlcVal.vs "")])
  | 7 =>
      ({ s with measurement_in_progress := false }, [Action.setMip false])
  | _ => (s, [])

/-- First `n` units of the `write_measurement_result` try-block. -/
def pub_units : Nat → ADSState → MeasurementData → PublishEnv →
    ADSState × List Action
  | 0, s, _, _ => (s, [])
  | n + 1, s, d, env =>
      let r := pub_units n s d env
      let r2 := pub_unit n r.1 d env
      (r2.1, r.2 ++ r2.2)

/-- Exception handler of `write_measurement_result` (lines 785-800):
log, force busy=FALSE, clear `measurement_in_progress`, then
best-effort resync of `last_trigger_state` from a fresh trigger read
(only when the session is open), falling back to False when that read
raises. -/
def pub_handler (s : ADSState) (env : PublishEnv) : ADSState × List Action :=
  let w := safe_write s var_busy env.hBusy
  let s1 : ADSState := { w.state with measurement_in_progress := false }
  let r2 : ADSState × List Action :=
    if s1.plcOpen then
      match env.hTriggerRead with
      | some b =>
          ({ s1 with last_trigger_state := b },
           [Action.readVar var_trigger (some (PlcVal.vb b)),
            Action.setLastTrigger b])
      | none =>
          ({ s1 with last_trigger_state := false },
           [Action.readVar var_trigger none, Action.setLastTrigger false])
    else (s1, [])
  (r2.1,
   [Action.safeWrite var_busy (PlcVal.vb false), Action.setMip false] ++ r2.2)

/-- Embedding of `write_measurement_result` (lines 707-800).  With a
closed session it only clears `measurement_in_progress`; otherwise it
runs the try-block units, jumping to the exception handler at the
injected fault point when there is one. -/
def write_measurement_result (s : ADSState) (d : MeasurementData)
    (env : PublishEnv) : ADSState × List Action :=
  if s.plcOpen = false then
    ({ s with measurement_in_progress := false }, [Action.setMip false])
  else
    match env.fault with
    | none => pub_units 8 s d env
    | some k =>
        if k ≤ 8 then
          let r := pub_units k s d env
          let r2 := pub_handler r.1 env
          (r2.1, r.2 ++ r2.2)
        else pub_units 8 s d env

/-! Concrete states used by witnesses and counterexamples. -/

/-- Freshly connected idle interface state: session open, not polling,
no edge state, empty circuit-breaker bookkeeping. -/
def sIdle : ADSState :=
  { plcOpen := true, running := false, last_trigger_state := false,
    last_start_cont_state := false, last_stop_cont_state := false,
    measurement_in_progress := false, write_timeout_count := [],
    disabled_variables := [] }

/-- State in which `var_ready` has been disabled by the circuit breaker
(three consecutive timeouts already recorded). -/
def sDisabled : ADSState :=
  { sIdle with disabled_variables := [var_ready],
               write_timeout_count := [(var_ready, 3)] }

/-! Helper lemmas about the dictionary and `safe_write`. -/

/-- Reading back the key just assigned in the timeout-counter dict. -/
theorem dictGet_dictSet_self (d : List (String × Nat)) (k : String) (v : Nat) :
    dictGet (dictSet d k v) k = some v := by
  induction d with
  | nil => simp [dictSet, dictGet]
  | cons p rest ih =>
      obtain ⟨k1, v1⟩ := p
      by_cases h : k1 = k
      · simp [dictSet, dictGet, h]
      · simp [dictSet, dictGet, h, ih]

/-- With a closed session `_safe_write` short-circuits: False, no I/O,
no log, no state change. -/
theorem safe_write_closed (s : ADSState) (v : String) (o : WriteOutcome)
    (h : s.plcOpen = false) : safe_write s v o = ⟨s, false, false, []⟩ := by
  simp [safe_write, h]

/-- On a disabled variable `_safe_write` short-circuits: False, no I/O,
no log, no state change. -/
theorem safe_write_disabled (s : ADSState) (v : String) (o : WriteOutcome)
    (h : v ∈ s.disabled_variables) :
    safe_write s v o = ⟨s, false, false, []⟩ := by
  by_cases hop : s.plcOpen = false
  · simp [safe_write, hop]
  · simp [safe_write, hop, h]

/-- State fields other than the circuit-breaker bookkeeping are never
touched by `_safe_write`. -/
theorem safe_write_core_state (s : ADSState) (v : String) (o : WriteOutcome) :
    (safe_write s v o).state.plcOpen = s.plcOpen ∧
    (safe_write s v o).state.running = s.running ∧
    (safe_write s v o).state.last_trigger_state = s.last_trigger_state ∧
    (safe_write s v o).state.last_start_cont_state = s.last_start_cont_state ∧
    (safe_write s v o).state.last_stop_cont_state = s.last_stop_cont_state ∧
    (safe_write s v o).state.measurement_in_progress =
      s.measurement_in_progress := by
  unfold safe_write
  cases o <;> split_ifs <;> simp_all <;>
    (try (split_ifs <;> simp_all))

/-- Every `_safe_write` call in a row on a disabled variable is skipped:
no attempt, False return, unchanged state. -/
theorem safe_write_runs_disabled (s : ADSState) (v : String)
    (h : v ∈ s.disabled_variables) (outs : List WriteOutcome) :
    ∀ r ∈ safe_write_runs s v outs, r.ret = false ∧ r.attempted = false := by
  induction outs generalizing s with
  | nil => intro r hr; simp [safe_write_runs] at hr
  | cons o rest ih =>
      intro r hr
      simp only [safe_write_runs, safe_write_disabled s v o h,
        List.mem_cons] at hr
      rcases hr with hr | hr
      · subst hr; exact ⟨rfl, rfl⟩
      · exact ih s h r hr

/-- An attempted timeout below the disable threshold: increment the
counter, log a timeout event, return False. -/
theorem safe_write_timeout_low (s : ADSState) (v : String)
    (hop : s.plcOpen = true) (hnd : v ∉ s.disabled_variables)
    (hc : countOf s v + 1 < max_consecutive_timeouts) :
    safe_write s v .timeout =
      ⟨{ s with
           write_timeout_count :=
             dictSet s.write_timeout_count v (countOf s v + 1) },
       false, true, [.writeTimeoutLog v (countOf s v + 1)]⟩ := by
  have h3 : ¬ max_consecutive_timeouts ≤
      (dictGet s.write_timeout_count v).getD 0 + 1 := by
    unfold countOf at hc; omega
  simp [safe_write, hop, hnd, h3, countOf]

/-- An attempted timeout reaching the disable threshold: increment the
counter, add the variable to the disabled set, log a disable event,
return False. -/
theorem safe_write_timeout_hit (s : ADSState) (v : String)
    (hop : s.plcOpen = true) (hnd : v ∉ s.disabled_variables)
    (hc : max_consecutive_timeouts ≤ countOf s v + 1) :
    safe_write s v .timeout =
      ⟨{ s with
           write_timeout_count :=
             dictSet s.write_timeout_count v (countOf s v + 1),
           disabled_variables := s.disabled_variables.insert v },
       false, true, [.variableDisabledLog v (countOf s v + 1)]⟩ := by
  have h3 : max_consecutive_timeouts ≤
      (dictGet s.write_timeout_count v).getD 0 + 1 := by
    unfold countOf at hc; omega
  simp [safe_write, hop, hnd, h3, countOf]

/-- The prominent fact about the source's re-enable branch: it is dead
code in sequential execution.  Reaching the success branch requires the
variable not to be disabled at entry, and nothing on the way re-adds
it, so the `reenabledLog` event can never be emitted. -/
theorem safe_write_never_reenables (s : ADSState) (v : String)
    (o : WriteOutcome) (w : String) :
    LogEvent.reenabledLog w ∉ (safe_write s v o).log := by
  by_cases h1 : s.plcOpen = false
  · simp [safe_write_closed s v o h1]
  by_cases h2 : v ∈ s.disabled_variables
  · simp [safe_write_disabled s v o h2]
  have hop : s.plcOpen = true := by simpa using h1
  cases o with
  | timeout =>
      by_cases h3 : max_consecutive_timeouts ≤ countOf s v + 1
      · simp [safe_write_timeout_hit s v hop h2 h3]
      · have h4 : countOf s v + 1 < max_consecutive_timeouts := by omega
        simp [safe_write_timeout_low s v hop h2 h4]
  | failure err =>
      unfold safe_write
      simp [h1, h2]
  | success =>
      unfold safe_write
      simp [h1, h2]

/-- A successful attempted write: resets the counter entry when present,
leaves the disabled set unchanged, returns True with no log. -/
theorem safe_write_success_eq (s : ADSState) (v : String)
    (hop : s.plcOpen = true) (hnd : v ∉ s.disabled_variables) :
    safe_write s v .success =
      ⟨{ s with
           write_timeout_count :=
             if (dictGet s.write_timeout_count v).isSome then
               dictSet s.write_timeout_count v 0
             else s.write_timeout_count },
       true, true, []⟩ := by
  simp [safe_write, hop, hnd]

/-- A failing attempted write: resets the counter entry when present,
returns False, logs a write-error event. -/
theorem safe_write_failure_eq (s : ADSState) (v : String) (err : String)
    (hop : s.plcOpen = true) (hnd : v ∉ s.disabled_variables) :
    safe_write s v (.failure err) =
      ⟨{ s with
           write_timeout_count :=
             if (dictGet s.write_timeout_count v).isSome then
               dictSet s.write_timeout_count v 0
             else s.write_timeout_count },
       false, true, [.writeErrorLog v err]⟩ := by
  simp [safe_write, hop, hnd]

/-- Counter value after the conditional reset performed by the success
and exception branches of `_safe_write`. -/
theorem countOf_conditional_reset (s : ADSState) (v : String) :
    countOf
      { s with
          write_timeout_count :=
            if (dictGet s.write_timeout_count v).isSome then
              dictSet s.write_timeout_count v 0
            else s.write_timeout_count } v = 0 := by
  by_cases hk : (dictGet s.write_timeout_count v).isSome
  · simp [countOf, hk, dictGet_dictSet_self]
  · have hn : dictGet s.write_timeout_count v = none :=
      Option.not_isSome_iff_eq_none.mp hk
    simp [countOf, hk, hn]

/-- Return value of a timed-out `_safe_write` is always False. -/
theorem safe_write_timeout_ret (s : ADSState) (v : String) :
    (safe_write s v .timeout).ret = false := by
  by_cases h1 : s.plcOpen = false
  · simp [safe_write_closed s v _ h1]
  by_cases h2 : v ∈ s.disabled_variables
  · simp [safe_write_disabled s v _ h2]
  have hop : s.plcOpen = true := by simpa using h1
  by_cases h3 : max_consecutive_timeouts ≤ countOf s v + 1
  · simp [safe_write_timeout_hit s v hop h2 h3]
  · have h4 : countOf s v + 1 < max_consecutive_timeouts := by omega
    simp [safe_write_timeout_low s v hop h2 h4]

/-- Return value of a failing `_safe_write` is always False. -/
theorem safe_write_failure_ret (s : ADSState) (v : String) (err : String) :
    (safe_write s v (.failure err)).ret = false := by
  by_cases h1 : s.plcOpen = false
  · simp [safe_write_closed s v _ h1]
  by_cases h2 : v ∈ s.disabled_variables
  · simp [safe_write_disabled s v _ h2]
  have hop : s.plcOpen = true := by simpa using h1
  simp [safe_write_failure_eq s v err hop h2]

/-- C6: exactly 3 consecutive Timeout outcomes of `_safe_write` on a
variable put it into the disabled set (not 1 or 2), log the disable
event at that moment, and every subsequent `_safe_write` call on that
variable, whatever its outcome, returns False without attempting any
I/O. -/
theorem three_consecutive_timeouts_disable (s : ADSState) (v : String)
    (hop : s.plcOpen = true) (hnd : v ∉ s.disabled_variables)
    (hc : countOf s v = 0) :
    (v ∉ (safe_write s v .timeout).state.disabled_variables ∧
     (safe_write s v .timeout).attempted = true ∧
     v ∉ (safe_write (safe_write s v .timeout).state v
           .timeout).state.disabled_variables ∧
     (safe_write (safe_write s v .timeout).state v .timeout).attempted =
       true ∧
     v ∈ (safe_write (safe_write (safe_write s v .timeout).state v
           .timeout).state v .timeout).state.disabled_variables ∧
     (safe_write (safe_write (safe_write s v .timeout).state v
         .timeout).state v .timeout).log =
       [LogEvent.variableDisabledLog v 3]) ∧
    ∀ (outs : List WriteOutcome),
      ∀ r ∈ safe_write_runs
          (safe_write (safe_write (safe_write s v .timeout).state v
              .timeout).state v .timeout).state v outs,
        r.ret = false ∧ r.attempted = false := by
  have e1 : safe_write s v .timeout =
      ⟨{ s with write_timeout_count := dictSet s.write_timeout_count v 1 },
       false, true, [.writeTimeoutLog v 1]⟩ := by
    simpa [hc] using safe_write_timeout_low s v hop hnd (by rw [hc]; decide)
  have h1p : (safe_write s v .timeout).state.plcOpen = true := by
    rw [e1]; exact hop
  have h1d : v ∉ (safe_write s v .timeout).state.disabled_variables := by
    rw [e1]; exact hnd
  have h1c : countOf (safe_write s v .timeout).state v = 1 := by
    rw [e1]; simp [countOf, dictGet_dictSet_self]
  have e2 : safe_write (safe_write s v .timeout).state v .timeout =
      ⟨{ (safe_write s v .timeout).state with
           write_timeout_count :=
             dictSet (safe_write s v .timeout).state.write_timeout_count
               v 2 },
       false, true, [.writeTimeoutLog v 2]⟩ := by
    simpa [h1c] using
      safe_write_timeout_low _ v h1p h1d (by rw [h1c]; decide)
  have h2p : (safe_write (safe_write s v .timeout).state v
      .timeout).state.plcOpen = true := by
    rw [e2]; exact h1p
  have h2d : v ∉ (safe_write (safe_write s v .timeout).state v
      .timeout).state.disabled_variables := by
    rw [e2]; exact h1d
  have h2c : countOf (safe_write (safe_write s v .timeout).state v
      .timeout).state v = 2 := by
    rw [e2]; simp [countOf, dictGet_dictSet_self]
  have e3 : safe_write (safe_write (safe_write s v .timeout).state v
        .timeout).state v .timeout =
      ⟨{ (safe_write (safe_write s v .timeout).state v .timeout).state with
           write_timeout_count :=
             dictSet (safe_write (safe_write s v .timeout).state v
                 .timeout).state.write_timeout_count v 3,
           disabled_variables :=
             (safe_write (safe_write s v .timeout).state v
                 .timeout).state.disabled_variables.insert v },
       false, true, [.variableDisabledLog v 3]⟩ := by
    simpa [h2c] using
      safe_write_timeout_hit _ v h2p h2d (by rw [h2c]; decide)
  have hmem : v ∈ (safe_write (safe_write (safe_write s v .timeout).state
      v .timeout).state v .timeout).state.disabled_variables := by
    rw [e3]; exact List.mem_insert_self v _
  refine ⟨⟨h1d, by rw [e1], h2d, by rw [e2], hmem, by rw [e3]⟩, ?_⟩
  intro outs r hr
  exact safe_write_runs_disabled _ v hmem outs r hr

/-- Witness for C6 at the concrete idle state and the ready variable. -/
theorem three_consecutive_timeouts_disable_witness :
    var_ready ∈ (safe_write (safe_write (safe_write sIdle var_ready
        .timeout).state var_ready .timeout).state var_ready
        .timeout).state.disabled_variables ∧
    (safe_write (safe_write (safe_write sIdle var_ready .timeout).state
        var_ready .timeout).state var_ready .timeout).log =
      [LogEvent.variableDisabledLog var_ready 3] :=
  ⟨(three_consecutive_timeouts_disable sIdle var_ready rfl (by decide)
      rfl).1.2.2.2.2.1,
   (three_consecutive_timeouts_disable sIdle var_ready rfl (by decide)
      rfl).1.2.2.2.2.2⟩

/-- C7 counterexample: in the concrete state where `var_ready` is
disabled, a `_safe_write` whose underlying write would succeed does not
remove the variable from the disabled set, does not reset its counter,
logs no re-enable event, and in fact never attempts the underlying
write, because `_safe_write` returns early on a disabled variable. -/
theorem disabled_write_success_ignored_cex :
    safe_write sDisabled var_ready .success = ⟨sDisabled, false, false, []⟩ ∧
    var_ready ∈
      (safe_write sDisabled var_ready .success).state.disabled_variables ∧
    countOf (safe_write sDisabled var_ready .success).state var_ready = 3 ∧
    (safe_write sDisabled var_ready .success).log = [] := by
  have h : safe_write sDisabled var_ready .success =
      ⟨sDisabled, false, false, []⟩ :=
    safe_write_disabled sDisabled var_ready .success (by decide)
  refine ⟨h, by rw [h]; decide, by rw [h]; decide, by rw [h]⟩

/-- C7 amended: a `_safe_write` call on a variable that is in the
disabled set returns False without attempting the write and leaves the
state unchanged, so its underlying write can never succeed; the
re-enable log event is unreachable in sequential execution; a success
on a variable that is NOT disabled returns True, clears its counter and
keeps it enabled.  Recovery of a disabled variable therefore only
happens through `reset_disabled_variables`. -/
theorem disabled_variable_not_recoverable_by_write (s : ADSState)
    (v : String) (o : WriteOutcome) :
    (v ∈ s.disabled_variables →
      safe_write s v o = ⟨s, false, false, []⟩) ∧
    (∀ w, LogEvent.reenabledLog w ∉ (safe_write s v o).log) ∧
    (s.plcOpen = true → v ∉ s.disabled_variables → o = .success →
      (safe_write s v o).ret = true ∧
      countOf (safe_write s v o).state v = 0 ∧
      v ∉ (safe_write s v o).state.disabled_variables) := by
  refine ⟨fun h => safe_write_disabled s v o h,
    fun w => safe_write_never_reenables s v o w, ?_⟩
  intro hop hnd ho
  subst ho
  rw [safe_write_success_eq s v hop hnd]
  exact ⟨rfl, countOf_conditional_reset s v, hnd⟩

/-- Witness for C7's amended theorem: the skip branch at the concrete
disabled state, and the counter-clearing success at the idle state. -/
theorem disabled_variable_not_recoverable_by_write_witness :
    safe_write sDisabled var_ready .timeout = ⟨sDisabled, false, false, []⟩ ∧
    (safe_write sIdle var_busy .success).ret = true :=
  ⟨(disabled_variable_not_recoverable_by_write sDisabled var_ready
      .timeout).1 (by decide),
   ((disabled_variable_not_recoverable_by_write sIdle var_busy
      .success).2.2 rfl (by decide) rfl).1⟩

/-- C8 counterexample: `reset_disabled_variables` has no return
statement, so even with an empty disabled set it returns `None`, not
the count 0 the claim asserts (and with a disabled variable present it
returns `None`, not 1). -/
theorem reset_disabled_variables_return_cex :
    sIdle.disabled_variables = [] ∧
    (reset_disabled_variables sIdle).ret = none ∧
    (reset_disabled_variables sIdle).ret ≠ some 0 ∧
    sDisabled.disabled_variables.length = 1 ∧
    (reset_disabled_variables sDisabled).ret ≠ some 1 := by
  refine ⟨rfl, rfl, by decide, rfl, by decide⟩

/-- C8 amended: `reset_disabled_variables` clears the disabled set and
all consecutive-timeout counters and logs an event carrying the number
of variables disabled at call time (0 when the set was empty), but it
returns `None`, not that number. -/
theorem reset_disabled_variables_spec (s : ADSState) :
    (reset_disabled_variables s).state.disabled_variables = [] ∧
    (reset_disabled_variables s).state.write_timeout_count = [] ∧
    (∀ v, countOf (reset_disabled_variables s).state v = 0) ∧
    (reset_disabled_variables s).ret = none ∧
    (reset_disabled_variables s).log =
      [LogEvent.resetDisabledLog s.disabled_variables.length] ∧
    (s.disabled_variables = [] →
      (reset_disabled_variables s).log = [LogEvent.resetDisabledLog 0]) := by
  refine ⟨rfl, rfl, fun v => rfl, rfl, rfl, fun h => ?_⟩
  simp [reset_disabled_variables, h]

/-- Witness for C8's amended theorem at the empty concrete state. -/
theorem reset_disabled_variables_spec_witness :
    (reset_disabled_variables sIdle).log = [LogEvent.resetDisabledLog 0] :=
  (reset_disabled_variables_spec sIdle).2.2.2.2.2 rfl

/-- C9 counterexample: calling `stop_polling` on the concrete connected
idle state (not running, session open) closes the session and emits log
events, so it is not a no-op on observable state and performs
side-effecting operations. -/
theorem stop_polling_when_idle_cex :
    sIdle.running = false ∧ sIdle.plcOpen = true ∧
    (stop_polling sIdle).1.plcOpen = false ∧
    (stop_polling sIdle).2 =
      [LogEvent.stopPollLog, LogEvent.disconnectLog] := by
  exact ⟨rfl, rfl, rfl, rfl⟩

/-- C9 amended: `stop_polling` when polling is not running leaves the
running flag, the trigger and edge-detection state, and the
disabled-variable bookkeeping unchanged, but it always emits a
stopped-polling log event and unconditionally disconnects, leaving the
session closed. -/
theorem stop_polling_idle_spec (s : ADSState) (h : s.running = false) :
    (stop_polling s).1.running = s.running ∧
    (stop_polling s).1.last_trigger_state = s.last_trigger_state ∧
    (stop_polling s).1.last_start_cont_state = s.last_start_cont_state ∧
    (stop_polling s).1.last_stop_cont_state = s.last_stop_cont_state ∧
    (stop_polling s).1.measurement_in_progress =
      s.measurement_in_progress ∧
    (stop_polling s).1.disabled_variables = s.disabled_variables ∧
    (stop_polling s).1.write_timeout_count = s.write_timeout_count ∧
    (stop_polling s).1.plcOpen = false ∧
    LogEvent.stopPollLog ∈ (stop_polling s).2 := by
  refine ⟨h.symm, rfl, rfl, rfl, rfl, rfl, rfl, rfl, ?_⟩
  simp [stop_polling]

/-- Witness for C9's amended theorem at the concrete idle state. -/
theorem stop_polling_idle_spec_witness :
    (stop_polling sIdle).1.last_trigger_state = sIdle.last_trigger_state ∧
    LogEvent.stopPollLog ∈ (stop_polling sIdle).2 :=
  ⟨(stop_polling_idle_spec sIdle rfl).2.1,
   (stop_polling_idle_spec sIdle rfl).2.2.2.2.2.2.2.2⟩

/-- C10: `_safe_write` is total at its interface.  With a closed session
or a disabled variable it returns False without any I/O and without
touching the state; an exception from the underlying `write_by_name` is
caught: it resets the variable's counter to zero, is logged, and yields
a False return with no exception escaping (the embedding is a total
function into `WriteResult`); and a True return only arises from a
successful underlying write. -/
theorem safe_write_total_interface (s : ADSState) (v : String)
    (o : WriteOutcome) :
    (s.plcOpen = false → safe_write s v o = ⟨s, false, false, []⟩) ∧
    (v ∈ s.disabled_variables →
      safe_write s v o = ⟨s, false, false, []⟩) ∧
    (∀ err, o = .failure err → s.plcOpen = true →
      v ∉ s.disabled_variables →
      (safe_write s v o).ret = false ∧
      (safe_write s v o).attempted = true ∧
      countOf (safe_write s v o).state v = 0 ∧
      (safe_write s v o).log = [LogEvent.writeErrorLog v err]) ∧
    ((safe_write s v o).ret = true → o = .success) := by
  refine ⟨fun h => safe_write_closed s v o h,
    fun h => safe_write_disabled s v o h, ?_, ?_⟩
  · intro err ho hop hnd
    subst ho
    rw [safe_write_failure_eq s v err hop hnd]
    exact ⟨rfl, rfl, countOf_conditional_reset s v, rfl⟩
  · intro hret
    cases o with
    | success => rfl
    | timeout => exact absurd hret (by simp [safe_write_timeout_ret])
    | failure err => exact absurd hret (by simp [safe_write_failure_ret])

/-- Witness for C10: the exception path at a concrete input. -/
theorem safe_write_total_interface_witness :
    (safe_write sIdle var_busy (.failure "boom")).ret = false ∧
    countOf (safe_write sIdle var_busy (.failure "boom")).state var_busy
      = 0 ∧
    (safe_write sIdle var_busy (.failure "boom")).log =
      [LogEvent.writeErrorLog var_busy "boom"] :=
  ⟨((safe_write_total_interface sIdle var_busy (.failure "boom")).2.2.1
      "boom" rfl rfl (by decide)).1,
   ((safe_write_total_interface sIdle var_busy (.failure "boom")).2.2.1
      "boom" rfl rfl (by decide)).2.2.1,
   ((safe_write_total_interface sIdle var_busy (.failure "boom")).2.2.1
      "boom" rfl rfl (by decide)).2.2.2⟩

/-! Poll-loop lemmas and the trigger/edge-detection claims. -/

/-- Command strings are pairwise distinct. -/
theorem cmd_trigger_ne_start : cmd_trigger ≠ cmd_start_cont := by decide

/-- The trigger command differs from the stop-continuous command. -/
theorem cmd_trigger_ne_stop : cmd_trigger ≠ cmd_stop_cont := by decide

/-- The continuous-mode branch never touches the trigger edge state,
the in-progress flag or the session flag. -/
theorem cont_step_state (s : ADSState) (env : CycleEnv) :
    (cont_step s env).1.last_trigger_state = s.last_trigger_state ∧
    (cont_step s env).1.measurement_in_progress =
      s.measurement_in_progress ∧
    (cont_step s env).1.plcOpen = s.plcOpen := by
  cases h : env.contRead with
  | none => simp [cont_step, h]
  | some p => obtain ⟨sc, st⟩ := p; simp [cont_step, h]

/-- The continuous-mode branch neither assigns the trigger edge state
nor dispatches the single-measurement command. -/
theorem cont_step_trace (s : ADSState) (env : CycleEnv) :
    (∀ b, Action.setLastTrigger b ∉ (cont_step s env).2) ∧
    Action.dispatch cmd_trigger ∉ (cont_step s env).2 := by
  cases h : env.contRead with
  | none => simp [cont_step, h]
  | some p =>
      obtain ⟨sc, st⟩ := p
      constructor
      · intro b
        simp only [cont_step, h]
        split_ifs <;> simp
      · simp only [cont_step, h]
        split_ifs <;>
          simp [cmd_trigger_ne_start, cmd_trigger_ne_stop]

/-- With a measurement in flight the rising-edge branch does nothing:
the triple guard requires `measurement_in_progress` to be False. -/
theorem edge_step_mip_true (s : ADSState) (env : CycleEnv) (t : Bool)
    (h : s.measurement_in_progress = true) :
    edge_step s env t = (s, []) := by
  simp [edge_step, h]

/-- A dispatch of the single-measurement command by the rising-edge
branch requires the full guard: trigger read True, stored edge state
False, no measurement in progress. -/
theorem edge_step_dispatch_cond (s : ADSState) (env : CycleEnv) (t : Bool)
    (hmem : Action.dispatch cmd_trigger ∈ (edge_step s env t).2) :
    t = true ∧ s.last_trigger_state = false ∧
    s.measurement_in_progress = false := by
  unfold edge_step at hmem
  split_ifs at hmem with h1 h2 h3
  · exact h1
  · exact h1
  · simp at hmem
  · simp at hmem

/-- The rising-edge branch dispatches the single-measurement command at
most once per cycle. -/
theorem edge_step_dispatch_count (s : ADSState) (env : CycleEnv)
    (t : Bool) :
    ((edge_step s env t).2).count (Action.dispatch cmd_trigger) ≤ 1 := by
  unfold edge_step
  split_ifs <;> simp [List.count_cons]

/-- The rising-edge branch never assigns the trigger edge state. -/
theorem edge_step_no_set (s : ADSState) (env : CycleEnv) (t : Bool)
    (b : Bool) : Action.setLastTrigger b ∉ (edge_step s env t).2 := by
  unfold edge_step
  split_ifs <;> simp

/-- With a measurement in flight the end-of-cycle edge-state update is
skipped. -/
theorem trigger_update_step_mip (s : ADSState) (t : Bool)
    (h : s.measurement_in_progress = true) :
    trigger_update_step s t = (s, []) := by
  simp [trigger_update_step, h]

/-- The end-of-cycle update never dispatches. -/
theorem trigger_update_step_no_dispatch (s : ADSState) (t : Bool) :
    Action.dispatch cmd_trigger ∉ (trigger_update_step s t).2 := by
  unfold trigger_update_step
  split_ifs <;> simp

/-- Master lemma: one poll cycle entered with a measurement in flight
keeps the trigger edge state and the in-flight flag, assigns nothing to
the edge state, and dispatches no measurement. -/
theorem poll_cycle_during_measurement (s : ADSState) (env : CycleEnv)
    (h : s.measurement_in_progress = true) :
    (poll_cycle s env).1.last_trigger_state = s.last_trigger_state ∧
    (poll_cycle s env).1.measurement_in_progress = true ∧
    (∀ b, Action.setLastTrigger b ∉ (poll_cycle s env).2) ∧
    Action.dispatch cmd_trigger ∉ (poll_cycle s env).2 := by
  by_cases h1 : s.plcOpen = false
  · simp [poll_cycle, h1, h]
  cases henv : env.triggerRead with
  | none => simp [poll_cycle, h1, henv, h]
  | some t =>
      have he := edge_step_mip_true s env t h
      have hcm : (cont_step s env).1.measurement_in_progress = true := by
        rw [(cont_step_state s env).2.1]; exact h
      have hu := trigger_update_step_mip (cont_step s env).1 t hcm
      have key : poll_cycle s env =
          ((cont_step s env).1,
           Action.readVar var_trigger (some (PlcVal.vb t)) ::
             Action.readVar var_ack (env.ackRead.map PlcVal.vb) ::
             (cont_step s env).2) := by
        simp [poll_cycle, h1, henv, he, hu]
      rw [key]
      refine ⟨(cont_step_state s env).1, hcm, ?_, ?_⟩
      · intro b
        simp [(cont_step_trace s env).1 b]
      · simp [(cont_step_trace s env).2]

/-- Master lemma extended to any number of poll cycles. -/
theorem poll_cycles_during_measurement (envs : List CycleEnv)
    (s : ADSState) (h : s.measurement_in_progress = true) :
    (poll_cycles s envs).1.last_trigger_state = s.last_trigger_state ∧
    (poll_cycles s envs).1.measurement_in_progress = true ∧
    (∀ b, Action.setLastTrigger b ∉ (poll_cycles s envs).2) ∧
    Action.dispatch cmd_trigger ∉ (poll_cycles s envs).2 := by
  induction envs generalizing s with
  | nil => exact ⟨rfl, h, by simp [poll_cycles], by simp [poll_cycles]⟩
  | cons e rest ih =>
      obtain ⟨hl, hm, hs, hd⟩ := poll_cycle_during_measurement s e h
      obtain ⟨ihl, ihm, ihs, ihd⟩ := ih (poll_cycle s e).1 hm
      refine ⟨by rw [poll_cycles]; rw [ihl, hl], by rw [poll_cycles]; exact ihm,
        ?_, ?_⟩
      · intro b
        rw [poll_cycles]
        simp only [List.mem_append]
        rintro (hin | hin)
        · exact hs b hin
        · exact ihs b hin
      · rw [poll_cycles]
        simp only [List.mem_append]
        rintro (hin | hin)
        · exact hd hin
        · exact ihd hin

/-- Normal form of a poll cycle with an open session and a successful
trigger read: the four sub-steps in source order. -/
theorem poll_cycle_eq (s : ADSState) (env : CycleEnv) (t : Bool)
    (h1 : ¬ s.plcOpen = false) (henv : env.triggerRead = some t) :
    poll_cycle s env =
      ((trigger_update_step (cont_step (edge_step s env t).1 env).1 t).1,
       Action.readVar var_trigger (some (PlcVal.vb t)) ::
         ((edge_step s env t).2 ++
          [Action.readVar var_ack (env.ackRead.map PlcVal.vb)] ++
          (cont_step (edge_step s env t).1 env).2 ++
          (trigger_update_step (cont_step (edge_step s env t).1 env).1
            t).2)) := by
  unfold poll_cycle
  rw [if_neg h1, henv]

/-- Guard condition for a dispatch within one full poll cycle. -/
theorem poll_cycle_dispatch_cond (s : ADSState) (env : CycleEnv)
    (hmem : Action.dispatch cmd_trigger ∈ (poll_cycle s env).2) :
    env.triggerRead = some true ∧ s.last_trigger_state = false ∧
    s.measurement_in_progress = false := by
  by_cases h1 : s.plcOpen = false
  · rw [show poll_cycle s env = (s, []) from by simp [poll_cycle, h1]]
      at hmem
    simp at hmem
  cases henv : env.triggerRead with
  | none =>
      rw [show poll_cycle s env =
          (s, [Action.readVar var_trigger none]) from by
        simp [poll_cycle, h1, henv]] at hmem
      simp at hmem
  | some t =>
      rw [poll_cycle_eq s env t h1 henv] at hmem
      rcases List.mem_cons.mp hmem with h | h
      · simp at h
      rcases List.mem_append.mp h with h | h
      · rcases List.mem_append.mp h with h | h
        · rcases List.mem_append.mp h with h | h
          · have hg := edge_step_dispatch_cond s env t h
            exact ⟨by rw [hg.1], hg.2.1, hg.2.2⟩
          · simp at h
        · exact absurd h ((cont_step_trace _ env).2)
      · exact absurd h (trigger_update_step_no_dispatch _ t)

/-- One poll cycle dispatches the single-measurement command at most
once. -/
theorem poll_cycle_dispatch_count (s : ADSState) (env : CycleEnv) :
    ((poll_cycle s env).2).count (Action.dispatch cmd_trigger) ≤ 1 := by
  by_cases h1 : s.plcOpen = false
  · rw [show poll_cycle s env = (s, []) from by simp [poll_cycle, h1]]
    simp
  cases henv : env.triggerRead with
  | none =>
      rw [show poll_cycle s env =
          (s, [Action.readVar var_trigger none]) from by
        simp [poll_cycle, h1, henv]]
      simp [List.count_cons]
  | some t =>
      rw [poll_cycle_eq s env t h1 henv]
      have hc : ((cont_step (edge_step s env t).1 env).2).count
          (Action.dispatch cmd_trigger) = 0 :=
        List.count_eq_zero.mpr ((cont_step_trace _ env).2)
      have hu : ((trigger_update_step
          (cont_step (edge_step s env t).1 env).1 t).2).count
          (Action.dispatch cmd_trigger) = 0 :=
        List.count_eq_zero.mpr (trigger_update_step_no_dispatch _ t)
      have he := edge_step_dispatch_count s env t
      simp only [List.count_cons, List.count_append, hc, hu]
      simp
      omega

/-- Concrete cycle environment: trigger reads high, everything benign. -/
def cenvHigh : CycleEnv :=
  { triggerRead := some true, ackRead := some false,
    contRead := some (false, false), intervalRead := some 100,
    haveCallback := true, callbackRaises := false,
    wBusy := .success, wReady := .success, wErr := .success,
    wBusy2 := .success }

/-- Concrete state with a measurement in flight (as left by a dispatch
from `sIdle`). -/
def sMeas : ADSState := { sIdle with measurement_in_progress := true }

/-- C1: while `measurement_in_progress` is true, no poll cycle assigns
the newly read trigger value to `last_trigger_state` — across any
sequence of poll cycles executed between dispatch and completion, the
stored edge state keeps the value it had at dispatch time, and the
in-flight flag stays set (only `write_measurement_result` clears
it). -/
theorem trigger_state_frozen_during_measurement (s : ADSState)
    (envs : List CycleEnv) (h : s.measurement_in_progress = true) :
    (poll_cycles s envs).1.last_trigger_state = s.last_trigger_state ∧
    (poll_cycles s envs).1.measurement_in_progress = true ∧
    ∀ b, Action.setLastTrigger b ∉ (poll_cycles s envs).2 := by
  obtain ⟨h1, h2, h3, _⟩ := poll_cycles_during_measurement envs s h
  exact ⟨h1, h2, h3⟩

/-- Witness for C1: two poll cycles with the trigger read high during a
measurement leave the stored edge state untouched. -/
theorem trigger_state_frozen_during_measurement_witness :
    (poll_cycles sMeas [cenvHigh, cenvHigh]).1.last_trigger_state =
      sMeas.last_trigger_state ∧
    Action.setLastTrigger true ∉ (poll_cycles sMeas [cenvHigh, cenvHigh]).2 :=
  ⟨(trigger_state_frozen_during_measurement sMeas [cenvHigh, cenvHigh]
      rfl).1,
   (trigger_state_frozen_during_measurement sMeas [cenvHigh, cenvHigh]
      rfl).2.2 true⟩

/-- C2: a poll cycle dispatches `"trigger_measurement"` at most once; a
dispatch happens only when the read value is true, the stored edge
state is false and no measurement is in progress; and from the moment
`measurement_in_progress` is true, no further dispatch occurs in any
number of poll cycles until it is cleared (by the result publisher),
whatever alternations of the trigger value are read in between. -/
theorem single_dispatch_per_measurement :
    (∀ (s : ADSState) (env : CycleEnv),
      ((poll_cycle s env).2).count (Action.dispatch cmd_trigger) ≤ 1) ∧
    (∀ (s : ADSState) (env : CycleEnv),
      Action.dispatch cmd_trigger ∈ (poll_cycle s env).2 →
        env.triggerRead = some true ∧ s.last_trigger_state = false ∧
        s.measurement_in_progress = false) ∧
    (∀ (s : ADSState) (envs : List CycleEnv),
      s.measurement_in_progress = true →
        Action.dispatch cmd_trigger ∉ (poll_cycles s envs).2) :=
  ⟨fun s env => poll_cycle_dispatch_count s env,
   fun s env hmem => poll_cycle_dispatch_cond s env hmem,
   fun s envs h => (poll_cycles_during_measurement envs s h).2.2.2⟩

/-- Witness for C2: the guard holds at the concrete dispatching cycle,
and no dispatch occurs during a concrete in-flight sequence with the
trigger read high and toggling. -/
theorem single_dispatch_per_measurement_witness :
    (cenvHigh.triggerRead = some true ∧
     sIdle.last_trigger_state = false ∧
     sIdle.measurement_in_progress = false) ∧
    Action.dispatch cmd_trigger ∉
      (poll_cycles sMeas
        [cenvHigh, { cenvHigh with triggerRead := some false },
         cenvHigh]).2 :=
  ⟨single_dispatch_per_measurement.2.1 sIdle cenvHigh (by decide),
   single_dispatch_per_measurement.2.2 sMeas
     [cenvHigh, { cenvHigh with triggerRead := some false }, cenvHigh]
     rfl⟩

/-- C5: `start_polling` (when not already running, with the session
open) reads the trigger variable once before starting the loop thread,
seeds `last_trigger_state` with the value read (false when the read
raises), and consequently, if the trigger read true at
`start_polling`, the first poll cycle dispatches no measurement. -/
theorem start_polling_seeds_trigger (s : ADSState) (env : StartEnv)
    (hrun : s.running = false) (hopen : s.plcOpen = true) :
    (start_polling s env).1.last_trigger_state =
      env.triggerRead.getD false ∧
    (start_polling s env).2.1 = true ∧
    (start_polling s env).2.2 =
      [Action.readVar var_trigger (env.triggerRead.map PlcVal.vb),
       Action.setLastTrigger (env.triggerRead.getD false),
       Action.startThread] ∧
    (env.triggerRead = some true →
      ∀ cenv : CycleEnv,
        Action.dispatch cmd_trigger ∉
          (poll_cycle (start_polling s env).1 cenv).2) := by
  have hne : ¬ (s.plcOpen = false ∧ env.connectOk = false) := by
    rw [hopen]; simp
  have hrun2 : ¬ s.running = true := by rw [hrun]; simp
  refine ⟨?_, ?_, ?_, ?_⟩
  · simp [start_polling, hrun, hne]
  · simp [start_polling, hrun, hne]
  · simp [start_polling, hrun, hne]
  · intro htr cenv hmem
    have hlast : (start_polling s env).1.last_trigger_state = true := by
      simp [start_polling, hrun, hne, htr]
    have hcond := poll_cycle_dispatch_cond _ cenv hmem
    rw [hlast] at hcond
    exact absurd hcond.2.1 (by simp)

/-- Witness for C5: with the trigger already high at `start_polling`,
the first concrete poll cycle performs no dispatch. -/
theorem start_polling_seeds_trigger_witness :
    (start_polling sIdle ⟨true, some true⟩).1.last_trigger_state = true ∧
    Action.dispatch cmd_trigger ∉
      (poll_cycle (start_polling sIdle ⟨true, some true⟩).1 cenvHigh).2 :=
  ⟨(start_polling_seeds_trigger sIdle ⟨true, some true⟩ rfl rfl).1,
   (start_polling_seeds_trigger sIdle ⟨true, some true⟩ rfl rfl).2.2.2
     rfl cenvHigh⟩

/-! Result-publisher lemmas and claims C3 and C4. -/

/-- Session flag is untouched by `_safe_write`. -/
theorem safe_write_plcOpen (s : ADSState) (v : String) (o : WriteOutcome) :
    (safe_write s v o).state.plcOpen = s.plcOpen :=
  (safe_write_core_state s v o).1

/-- Trigger edge state is untouched by `_safe_write`. -/
theorem safe_write_last (s : ADSState) (v : String) (o : WriteOutcome) :
    (safe_write s v o).state.last_trigger_state = s.last_trigger_state :=
  (safe_write_core_state s v o).2.2.1

/-- In-flight flag is untouched by `_safe_write`. -/
theorem safe_write_mip (s : ADSState) (v : String) (o : WriteOutcome) :
    (safe_write s v o).state.measurement_in_progress =
      s.measurement_in_progress :=
  (safe_write_core_state s v o).2.2.2.2.2

/-- Base case of the unit runner. -/
theorem pub_units_zero (s : ADSState) (d : MeasurementData)
    (env : PublishEnv) : pub_units 0 s d env = (s, []) := rfl

/-- Unfolding step of the unit runner. -/
theorem pub_units_succ (n : Nat) (s : ADSState) (d : MeasurementData)
    (env : PublishEnv) :
    pub_units (n + 1) s d env =
      ((pub_unit n (pub_units n s d env).1 d env).1,
       (pub_units n s d env).2 ++
         (pub_unit n (pub_units n s d env).1 d env).2) := rfl

/-- No unit of the publish sequence touches the session flag. -/
theorem pub_unit_plcOpen (i : Nat) (s : ADSState) (d : MeasurementData)
    (env : PublishEnv) : (pub_unit i s d env).1.plcOpen = s.plcOpen := by
  rcases i with _ | _ | _ | _ | _ | _ | _ | _ | i
  · cases h : env.triggerRead <;> simp [pub_unit, h]
  · cases h : d.thickness <;> simp [pub_unit, h, safe_write_plcOpen]
  · cases h : d.peak1 <;> simp [pub_unit, h, safe_write_plcOpen]
  · cases h : d.peak2 <;> simp [pub_unit, h, safe_write_plcOpen]
  · simp [pub_unit, safe_write_plcOpen]
  · simp only [pub_unit]
    split <;> simp [safe_write_plcOpen]
  · simp [pub_unit, safe_write_plcOpen]
  · simp [pub_unit]
  · simp [pub_unit]

/-- Running any number of units preserves the session flag. -/
theorem pub_units_plcOpen (n : Nat) (s : ADSState) (d : MeasurementData)
    (env : PublishEnv) : (pub_units n s d env).1.plcOpen = s.plcOpen := by
  induction n with
  | zero => rfl
  | succ n ih => rw [pub_units_succ, pub_unit_plcOpen, ih]

/-- The exception handler always leaves the in-flight flag cleared. -/
theorem pub_handler_mip (s : ADSState) (env : PublishEnv) :
    (pub_handler s env).1.measurement_in_progress = false := by
  simp only [pub_handler]
  split
  · split <;> rfl
  · rfl

/-- The exception handler forces a busy=FALSE write. -/
theorem pub_handler_busy_mem (s : ADSState) (env : PublishEnv) :
    Action.safeWrite var_busy (PlcVal.vb false) ∈ (pub_handler s env).2 := by
  simp [pub_handler]

/-- The exception handler's best-effort resync (session open): a fresh
read stores its value into the edge state, a raising read falls back to
False. -/
theorem pub_handler_resync (s : ADSState) (env : PublishEnv)
    (hop : s.plcOpen = true) :
    (env.hTriggerRead = none →
      (pub_handler s env).1.last_trigger_state = false) ∧
    (∀ b, env.hTriggerRead = some b →
      (pub_handler s env).1.last_trigger_state = b) := by
  have hp : (safe_write s var_busy env.hBusy).state.plcOpen = true := by
    rw [safe_write_plcOpen]; exact hop
  constructor
  · intro h; simp [pub_handler, h, hp]
  · intro b h; simp [pub_handler, h, hp]

/-- C4: for every input and fault path, `write_measurement_result`
leaves `measurement_in_progress` cleared: with a closed session it skips
all writes and only clears the flag; on an injected exception it still
writes busy=FALSE, clears the flag, and resyncs the trigger edge state
from a fresh read, falling back to False when that read raises. -/
theorem publish_always_clears_in_progress (s : ADSState)
    (d : MeasurementData) (env : PublishEnv) :
    (write_measurement_result s d env).1.measurement_in_progress = false ∧
    (s.plcOpen = false →
      write_measurement_result s d env =
        ({ s with measurement_in_progress := false },
         [Action.setMip false])) ∧
    (s.plcOpen = true → ∀ k, env.fault = some k → k ≤ 8 →
      Action.safeWrite var_busy (PlcVal.vb false) ∈
        (write_measurement_result s d env).2 ∧
      (env.hTriggerRead = none →
        (write_measurement_result s d env).1.last_trigger_state = false) ∧
      (∀ b, env.hTriggerRead = some b →
        (write_measurement_result s d env).1.last_trigger_state = b)) := by
  refine ⟨?_, ?_, ?_⟩
  · by_cases hp : s.plcOpen = false
    · simp [write_measurement_result, hp]
    · cases hv : env.fault with
      | none =>
          have heq : write_measurement_result s d env =
              pub_units 8 s d env := by
            unfold write_measurement_result; rw [if_neg hp, hv]
          rw [heq]; rfl
      | some k =>
          by_cases hk : k ≤ 8
          · have heq : write_measurement_result s d env =
                ((pub_handler (pub_units k s d env).1 env).1,
                 (pub_units k s d env).2 ++
                   (pub_handler (pub_units k s d env).1 env).2) := by
              unfold write_measurement_result
              rw [if_neg hp, hv]
              dsimp only
              rw [if_pos hk]
            rw [heq]
            exact pub_handler_mip _ env
          · have heq : write_measurement_result s d env =
                pub_units 8 s d env := by
              unfold write_measurement_result
              rw [if_neg hp, hv]
              dsimp only
              rw [if_neg hk]
            rw [heq]; rfl
  · intro hp; simp [write_measurement_result, hp]
  · intro hop k hf hk
    have hne : ¬ s.plcOpen = false := by rw [hop]; simp
    have heq : write_measurement_result s d env =
        ((pub_handler (pub_units k s d env).1 env).1,
         (pub_units k s d env).2 ++
           (pub_handler (pub_units k s d env).1 env).2) := by
      unfold write_measurement_result
      rw [if_neg hne, hf]
      dsimp only
      rw [if_pos hk]
    have hXopen : (pub_units k s d env).1.plcOpen = true := by
      rw [pub_units_plcOpen]; exact hop
    rw [heq]
    exact ⟨List.mem_append_right _ (pub_handler_busy_mem _ env),
      fun h => (pub_handler_resync _ env hXopen).1 h,
      fun b h => (pub_handler_resync _ env hXopen).2 b h⟩

/-- Concrete publish environment injecting an exception after the
resync and field-write units, with an unreadable trigger in the
handler. -/
def penvFault : PublishEnv :=
  { triggerRead := some true, wThickness := .success, wPeak1 := .success,
    wPeak2 := .success, wCount := .success, wBusy := .success,
    wReady := .success, wErr := .success, fault := some 2,
    hBusy := .success, hTriggerRead := none }

/-- Concrete fault-free publish environment. -/
def penvOk : PublishEnv :=
  { penvFault with fault := none }

/-- Concrete measurement-result dictionary (thickness and peak2
present, peak1 absent). -/
def mdata : MeasurementData := ⟨some 5, none, some 7, some 3⟩

/-- Witness for C4: an exception injected after two units still leaves
the flag cleared and the edge state reset to False when the handler's
resync read raises. -/
theorem publish_always_clears_in_progress_witness :
    (write_measurement_result sMeas mdata penvFault).1.measurement_in_progress
      = false ∧
    (write_measurement_result sMeas mdata penvFault).1.last_trigger_state
      = false :=
  ⟨(publish_always_clears_in_progress sMeas mdata penvFault).1,
   ((publish_always_clears_in_progress sMeas mdata penvFault).2.2 rfl 2
      rfl (by decide)).2.1 rfl⟩

/-- C3: with the session open, no injected exception and a successful
resync read, the publish sequence performs, in this order: the fresh
trigger read stored into `last_trigger_state`, the writes of exactly the
result fields present in the input, busy=FALSE, ready=TRUE only if the
busy write returned success, the error-variable clear, and the clearing
of `measurement_in_progress` last; the fresh trigger value survives to
the final state. -/
theorem publish_sequence_order (s : ADSState) (d : MeasurementData)
    (env : PublishEnv) (b : Bool) (hopen : s.plcOpen = true)
    (hfault : env.fault = none) (htr : env.triggerRead = some b) :
    (write_measurement_result s d env).2 =
      Action.readVar var_trigger (some (PlcVal.vb b)) ::
      Action.setLastTrigger b ::
      ((match d.thickness with
        | some x => [Action.safeWrite var_thickness (PlcVal.vr x)]
        | none => []) ++
       (match d.peak1 with
        | some x => [Action.safeWrite var_peak1 (PlcVal.vr x)]
        | none => []) ++
       (match d.peak2 with
        | some x => [Action.safeWrite var_peak2 (PlcVal.vr x)]
        | none => []) ++
       [Action.safeWrite var_count (PlcVal.vn (d.measurement_count.getD 0))] ++
       [Action.safeWrite var_busy (PlcVal.vb false)] ++
       (if (safe_write (pub_units 5 s d env).1 var_busy env.wBusy).ret then
          [Action.safeWrite var_ready (PlcVal.vb true)]
        else []) ++
       [Action.safeWrite var_error (PlcVal.vs "")] ++
       [Action.setMip false]) ∧
    (write_measurement_result s d env).1.measurement_in_progress = false ∧
    (write_measurement_result s d env).1.last_trigger_state = b := by
  have hne : ¬ s.plcOpen = false := by rw [hopen]; simp
  have heq : write_measurement_result s d env = pub_units 8 s d env := by
    unfold write_measurement_result; rw [if_neg hne, hfault]
  rw [heq]
  obtain ⟨th, p1, p2, mc⟩ := d
  rw [show (8 : Nat) = 7 + 1 from rfl, pub_units_succ,
    show (7 : Nat) = 6 + 1 from rfl, pub_units_succ,
    show (6 : Nat) = 5 + 1 from rfl, pub_units_succ,
    show (5 : Nat) = 4 + 1 from rfl, pub_units_succ,
    show (4 : Nat) = 3 + 1 from rfl, pub_units_succ,
    show (3 : Nat) = 2 + 1 from rfl, pub_units_succ,
    show (2 : Nat) = 1 + 1 from rfl, pub_units_succ,
    show (1 : Nat) = 0 + 1 from rfl, pub_units_succ, pub_units_zero]
  cases th <;> cases p1 <;> cases p2 <;>
    (simp only [pub_unit, htr]
     split_ifs <;>
       simp_all [List.append_assoc, safe_write_last, safe_write_mip])

/-- Witness for C3 at concrete inputs: the full ordered trace. -/
theorem publish_sequence_order_witness :
    (write_measurement_result sMeas mdata penvOk).2 =
      [Action.readVar var_trigger (some (PlcVal.vb true)),
       Action.setLastTrigger true,
       Action.safeWrite var_thickness (PlcVal.vr 5),
       Action.safeWrite var_peak2 (PlcVal.vr 7),
       Action.safeWrite var_count (PlcVal.vn 3),
       Action.safeWrite var_busy (PlcVal.vb false),
       Action.safeWrite var_ready (PlcVal.vb true),
       Action.safeWrite var_error (PlcVal.vs ""),
       Action.setMip false] := by
  rw [(publish_sequence_order sMeas mdata penvOk true rfl rfl rfl).1]
  decide

end BeckhoffADS
